import Mathlib

/-!
Shallow embedding of the gpio-rs repository (src/src/lib.rs, src/src/sysfs.rs,
src/src/dummy.rs): the value codec, the sysfs pin handle life cycle, the
sysfs edge multiplexer and the dummy test double, together with theorems
checking the specification's claims against these definitions.

Filesystem effects are made explicit: fallible sysfs operations are modelled
against a `World` that records, per operation, whether the underlying
filesystem call succeeds, and every operation returns the list of attempted
filesystem writes/opens as a trace next to its `Except` result.  Machine
integers are modelled as `Nat`/`Int` with explicit wrapping where the source
converts between widths.
-/

deriving instance DecidableEq for Except

namespace Gpio

/-- Binary logical level of a GPIO pin (`GpioValue` in src/src/lib.rs). -/
inductive GpioValue where
  | low
  | high
deriving DecidableEq, Repr

/-- Embedding of `impl From<bool> for GpioValue` (src/src/lib.rs lines 26-30):
`true` becomes `High`, `false` becomes `Low`. -/
def gpioValueFromBool (b : Bool) : GpioValue :=
  if b then .high else .low

/-- Embedding of `impl From<u8> for GpioValue` (src/src/lib.rs lines 32-40):
a nonzero byte becomes `High`, the zero byte becomes `Low`.  Bytes are
modelled as `Nat` (the source type is `u8`, so callers range over 0..255,
but the definition is total on `Nat` exactly as the source match is). -/
def gpioValueFromU8 (v : Nat) : GpioValue :=
  if v ≠ 0 then .high else .low

/-- Modelled from the spec: the conversion from a `GpioValue` back to a
boolean is not present under src/ (only the `From<bool>`/`From<u8>`
conversions into `GpioValue` are); the spec says the value "converts
losslessly to/from boolean", which forces `High ↦ true`, `Low ↦ false`. -/
def gpioValueToBool : GpioValue → Bool
  | .low => false
  | .high => true

/-- Modelled from the spec: the conversion from a `GpioValue` to a byte is
not present under src/; the spec's mapping "`0` ⇔ Low, nonzero ⇔ High"
fixes `Low ↦ 0` and makes `High` map to the canonical nonzero wire byte 1
(the single-character wire form `"1"` of §4.2 / §6). -/
def gpioValueToU8 : GpioValue → Nat
  | .low => 0
  | .high => 1

/-- Edge/wake policy for an input pin (`GpioEdge`; used by src/src/dummy.rs
and src/src/sysfs.rs via `super::GpioEdge`). -/
inductive GpioEdge where
  | none
  | rising
  | falling
  | both
deriving DecidableEq, Repr

/-- Direction of a sysfs pin (`GpioDirection` in src/src/sysfs.rs lines 17-21). -/
inductive GpioDirection where
  | input
  | output
deriving DecidableEq, Repr

/-- Embedding of the `GpioError` enum of src/src/sysfs.rs lines 23-52.  The
payloads of `Io` and `Epoll` are opaque underlying error values, modelled as
numeric codes.  Note there is no timeout constructor: the enum's only
variants are `Io`, `Epoll`, `EpollEventCount`, `EpollDataValue` and
`InvalidData`. -/
inductive GpioError where
  | io (err : Nat)
  | epoll (err : Nat)
  | epollEventCount (count : Nat)
  | epollDataValue (val : Nat)
  | invalidData (val : Nat)
deriving DecidableEq, Repr

/-- Constructor tag of a `GpioError`, used to compare error kinds: two
errors have the same kind exactly when they were built by the same
`GpioError` variant (possibly with different payloads). -/
def GpioError.kind : GpioError → Nat
  | .io _ => 0
  | .epoll _ => 1
  | .epollEventCount _ => 2
  | .epollDataValue _ => 3
  | .invalidData _ => 4

/-- A seekable pseudo-file channel: the byte content exposed by the kernel
plus the current cursor position.  This models the open
`/sys/class/gpio/gpioN/value` file handle kept in `SysFsGpio.sysfp`. -/
structure ValueFile where
  content : List Nat
  pos : Nat
deriving DecidableEq, Repr

/-- Embedding of `seek(SeekFrom::Start(0))` on the value channel
(src/src/sysfs.rs line 217): the cursor is rewound to position 0. -/
def seekStart (f : ValueFile) : ValueFile :=
  { f with pos := 0 }

/-- Embedding of `read_exact(&mut buf)` with a one-byte buffer
(src/src/sysfs.rs line 220): reads the single byte at the cursor and
advances the cursor by one; at end of file it fails with an I/O error
(`read_exact` reports `UnexpectedEof`, which enters `GpioError` through the
`Io` variant). -/
def readExact1 (f : ValueFile) : Except GpioError (Nat × ValueFile) :=
  match f.content.drop f.pos with
  | [] => .error (.io 0)
  | b :: _ => .ok (b, { f with pos := f.pos + 1 })

/-- Embedding of `SysFsGpioInput::read_value` (src/src/sysfs.rs lines
212-230): rewind the channel to its start, read exactly one byte, then map
byte `'0'` (48) to `Low`, byte `'1'` (49) to `High`, and any other byte `b`
to the typed error `InvalidData b`.  The function is total: no input makes
it panic. -/
def read_value (f : ValueFile) : Except GpioError (GpioValue × ValueFile) :=
  match readExact1 (seekStart f) with
  | .error e => .error e
  | .ok (b, f1) =>
    if b = 48 then .ok (.low, f1)
    else if b = 49 then .ok (.high, f1)
    else .error (.invalidData b)

/-- One attempted filesystem operation of the sysfs backend, tagged with the
pin number (and, where relevant, the direction written/used).  `writeExport`
is a write of the decimal pin number to `/sys/class/gpio/export`;
`writeUnexport` the analogue on `unexport`; `writeActiveLow` writes the byte
`"0"` to `gpioN/active_low`; `writeDirection` writes `"in"`/`"out"` to
`gpioN/direction`; `openValue` opens `gpioN/value` (for reading when the
direction is `Input`, for writing when it is `Output`). -/
inductive FsOp where
  | writeExport (gpio_num : Nat)
  | writeUnexport (gpio_num : Nat)
  | writeActiveLow (gpio_num : Nat)
  | writeDirection (gpio_num : Nat) (direction : GpioDirection)
  | openValue (gpio_num : Nat) (direction : GpioDirection)
deriving DecidableEq, Repr

/-- Outcome oracle for the filesystem: whether the pin's directory is
already visible (`fs::metadata(".../gpioN").is_ok()`), whether each kind of
sysfs write/open succeeds, and the byte content served by the value
pseudo-file once opened. -/
structure World where
  pinVisible : Bool
  exportOk : Bool
  activeLowOk : Bool
  directionOk : Bool
  openOk : Bool
  valueContent : List Nat

/-- Embedding of `export_gpio_if_unexported` (src/src/sysfs.rs lines 56-68):
if the pin directory is not visible, write the pin number to `export`
(fallible); then, in every case, write `"0"` to `active_low` (fallible).
Returns the trace of attempted filesystem operations next to the result. -/
def export_gpio_if_unexported (w : World) (gpio_num : Nat) :
    List FsOp × Except GpioError Unit :=
  let step1 : List FsOp × Except GpioError Unit :=
    if w.pinVisible then ([], .ok ())
    else ([.writeExport gpio_num], if w.exportOk then .ok () else .error (.io 0))
  match step1 with
  | (t1, .error e) => (t1, .error e)
  | (t1, .ok ()) =>
    (t1 ++ [.writeActiveLow gpio_num],
      if w.activeLowOk then .ok () else .error (.io 0))

/-- Embedding of `set_gpio_direction` (src/src/sysfs.rs lines 70-78): write
the direction wire string (`"in"` or `"out"`) to `gpioN/direction`. -/
def set_gpio_direction (w : World) (gpio_num : Nat) (direction : GpioDirection) :
    List FsOp × Except GpioError Unit :=
  ([.writeDirection gpio_num direction],
    if w.directionOk then .ok () else .error (.io 0))

/-- Embedding of `open_gpio` (src/src/sysfs.rs lines 80-88): open the
`gpioN/value` pseudo-file for the given direction, yielding a fresh channel
positioned at the start. -/
def open_gpio (w : World) (gpio_num : Nat) (direction : GpioDirection) :
    List FsOp × Except GpioError ValueFile :=
  ([.openValue gpio_num direction],
    if w.openOk then .ok ⟨w.valueContent, 0⟩ else .error (.io 0))

/-- The sysfs pin handle (`SysFsGpio`, src/src/sysfs.rs lines 90-94): the
pin number together with the open value channel. -/
structure SysFsGpio where
  gpio_num : Nat
  sysfp : ValueFile
deriving DecidableEq, Repr

/-- Embedding of `SysFsGpio::open` (src/src/sysfs.rs lines 96-112): run
`export_gpio_if_unexported`, then write `"0"` to `active_low` once more
(lines 100-103 repeat the polarity fix-up already performed at the end of
`export_gpio_if_unexported`), then `set_gpio_direction`, then `open_gpio`;
each step's failure aborts the sequence and is returned as the error. -/
def SysFsGpio.openPin (w : World) (gpio_num : Nat) (direction : GpioDirection) :
    List FsOp × Except GpioError SysFsGpio :=
  match export_gpio_if_unexported w gpio_num with
  | (t1, .error e) => (t1, .error e)
  | (t1, .ok ()) =>
    match (([.writeActiveLow gpio_num] : List FsOp),
        if w.activeLowOk then (.ok () : Except GpioError Unit) else .error (.io 0)) with
    | (t2, .error e) => (t1 ++ t2, .error e)
    | (t2, .ok ()) =>
      match set_gpio_direction w gpio_num direction with
      | (t3, .error e) => (t1 ++ t2 ++ t3, .error e)
      | (t3, .ok ()) =>
        match open_gpio w gpio_num direction with
        | (t4, .error e) => (t1 ++ t2 ++ t3 ++ t4, .error e)
        | (t4, .ok f) => (t1 ++ t2 ++ t3 ++ t4, .ok ⟨gpio_num, f⟩)

/-- Embedding of `SysFsGpio::set_direction` (src/src/sysfs.rs lines
114-120): write the new direction, then reopen the value channel and
replace `sysfp` with it; the pin number field is untouched. -/
def SysFsGpio.set_direction (w : World) (g : SysFsGpio) (direction : GpioDirection) :
    List FsOp × Except GpioError SysFsGpio :=
  match set_gpio_direction w g.gpio_num direction with
  | (t1, .error e) => (t1, .error e)
  | (t1, .ok ()) =>
    match open_gpio w g.gpio_num direction with
    | (t2, .error e) => (t1 ++ t2, .error e)
    | (t2, .ok f) => (t1 ++ t2, .ok { g with sysfp := f })

/-- The public output handle (`SysFsGpioOutput`, src/src/sysfs.rs lines
137-140), wrapping a `SysFsGpio`. -/
structure SysFsGpioOutput where
  gpio : SysFsGpio
deriving DecidableEq, Repr

/-- The public input handle (`SysFsGpioInput`, src/src/sysfs.rs lines
180-183), wrapping a `SysFsGpio`. -/
structure SysFsGpioInput where
  gpio : SysFsGpio
deriving DecidableEq, Repr

/-- Embedding of `SysFsGpioOutput::into_input` (src/src/sysfs.rs lines
151-155): switch the wrapped pin to `Input` via `set_direction` and rewrap
(`SysFsGpioInput::from_gpio` always succeeds, lines 192-195). -/
def SysFsGpioOutput.into_input (w : World) (o : SysFsGpioOutput) :
    List FsOp × Except GpioError SysFsGpioInput :=
  match SysFsGpio.set_direction w o.gpio .input with
  | (t, .error e) => (t, .error e)
  | (t, .ok g) => (t, .ok ⟨g⟩)

/-- Embedding of `SysFsGpioInput::into_output` (src/src/sysfs.rs lines
197-201): switch the wrapped pin to `Output` via `set_direction` and
rewrap. -/
def SysFsGpioInput.into_output (w : World) (i : SysFsGpioInput) :
    List FsOp × Except GpioError SysFsGpioOutput :=
  match SysFsGpio.set_direction w i.gpio .output with
  | (t, .error e) => (t, .error e)
  | (t, .ok g) => (t, .ok ⟨g⟩)

/-- The full ordered trace of filesystem operations that `SysFsGpio::open`
attempts when every step succeeds: the conditional export write, then the
polarity write (performed twice by the source: once in
`export_gpio_if_unexported`, once again in `open` itself), then the
direction write, then the value-channel open.  Every actual trace of
`SysFsGpio.openPin` is a prefix of this list. -/
def openFullTrace (visible : Bool) (gpio_num : Nat) (direction : GpioDirection) :
    List FsOp :=
  (if visible then [] else [.writeExport gpio_num]) ++
    [.writeActiveLow gpio_num, .writeActiveLow gpio_num,
      .writeDirection gpio_num direction, .openValue gpio_num direction]

/-- Maximum value of a 64-bit `isize` (the source targets Linux sysfs on a
64-bit word; `isize::MAX = 2^63 - 1`). -/
def isizeMax : Int := 2 ^ 63 - 1

/-- Embedding of the Rust cast `t as isize` on a `u64` value `t`: the bit
pattern is reinterpreted two's-complement, so values at least `2^63` wrap
to negative. -/
def u64AsIsize (t : Nat) : Int :=
  if t % 2 ^ 64 < 2 ^ 63 then (t % 2 ^ 64 : Int) else (t % 2 ^ 64 : Int) - 2 ^ 64

/-- Embedding of the timeout computation of `SysFsGpioEdgeIter::get_next`
(src/src/sysfs.rs line 282): `self.timeout.map_or(isize::MAX, |t| t as
isize)`.  This is the millisecond timeout argument handed to `epoll_wait`,
whose interface treats a negative value as "wait without bound" and any
nonnegative value as a finite bound in milliseconds. -/
def effectiveTimeout (timeout : Option Nat) : Int :=
  match timeout with
  | none => isizeMax
  | some t => u64AsIsize t

/-- State of the sysfs edge multiplexer (`SysFsGpioEdgeIter`,
src/src/sysfs.rs lines 246-253): the optional millisecond timeout and the
dense slot table of registered borrowed devices (`devs`); the kernel epoll
file descriptor itself carries no modelled state. -/
structure EdgeIter (α : Type) where
  timeout : Option Nat
  devs : List α
deriving DecidableEq, Repr

/-- Embedding of `SysFsGpioEdgeIter::timeout_ms` (src/src/sysfs.rs lines
265-268): sets the timeout to `some timeout_ms`. -/
def EdgeIter.timeout_ms (it : EdgeIter α) (t : Nat) : EdgeIter α :=
  { it with timeout := some t }

/-- Embedding of the registration step `SysFsGpioEdgeIter::add`
(src/src/sysfs.rs lines 270-279): the device's index in `devs` (its length
before the push) is the correlation token registered with epoll, and the
device is pushed at that index. -/
def EdgeIter.add (it : EdgeIter α) (dev : α) : EdgeIter α :=
  { it with devs := it.devs ++ [dev] }

/-- Outcome of one `epoll_wait` call, as seen by `get_next`: either the
call itself failed, or it returned an event count together with the data
word of `events[0]` (on a zero-event return — a timeout — the data word is
the dummy event's, which `get_next` never reads because it checks the count
first). -/
inductive WaitOutcome where
  | fail (err : Nat)
  | events (count : Nat) (data : Nat)
deriving DecidableEq, Repr

/-- Embedding of `SysFsGpioEdgeIter::get_next` (src/src/sysfs.rs lines
281-294) as a function of the epoll outcome: an epoll failure becomes the
`Epoll` error; an event count other than exactly one becomes
`EpollEventCount count` (in particular a timeout, where the count is 0);
otherwise the data word is used as an index into the slot table `devs` via
the bounds-checked `get`, an out-of-range token becoming
`EpollDataValue data`. -/
def EdgeIter.get_next (it : EdgeIter α) (outcome : WaitOutcome) :
    Except GpioError α :=
  match outcome with
  | .fail err => .error (.epoll err)
  | .events count data =>
    if count ≠ 1 then .error (.epollEventCount count)
    else
      match it.devs.get? data with
      | some d => .ok d
      | none => .error (.epollDataValue data)

/-- Embedding of `Iterator::next` for `SysFsGpioEdgeIter` (src/src/sysfs.rs
lines 297-303): every pull wraps `get_next` in `some` — the sequence is
never exhausted. -/
def EdgeIter.next (it : EdgeIter α) (outcome : WaitOutcome) :
    Option (Except GpioError α) :=
  some (it.get_next outcome)

/-- Embedding of the edge filter of `DummyEdgeIter::next` (src/src/dummy.rs
lines 120-127): whether a change to `newVal` fires an event under the given
policy — `Both` always, `Rising` exactly on a change to `High`, `Falling`
exactly on a change to `Low`, `None` never. -/
def edgeFires (edge : GpioEdge) (newVal : GpioValue) : Bool :=
  match edge, newVal with
  | .both, _ => true
  | .rising, .high => true
  | .falling, .low => true
  | _, _ => false

/-- Number of ready events `DummyEdgeIter::next` (src/src/dummy.rs lines
105-132) reports for one registered device while its callback yields the
values of `vals` one per polling round, starting from the stored baseline
`stored`: a round whose value equals the stored one is skipped; otherwise
the stored value is updated and an event is reported exactly when
`edgeFires` holds for the new value. -/
def countEdgeEvents (edge : GpioEdge) : GpioValue → List GpioValue → Nat
  | _, [] => 0
  | stored, v :: rest =>
    if stored = v then countEdgeEvents edge stored rest
    else (if edgeFires edge v then 1 else 0) + countEdgeEvents edge v rest

/-- Total number of ready events the dummy edge iterator reports for a
single registered device whose callback yields the value sequence `vals`:
`DummyEdgeIter::add` (src/src/dummy.rs lines 98-102) reads the device once,
storing the first value as the baseline, and each later polling round of
`next` consumes the next value. -/
def dummyIterEvents (edge : GpioEdge) (vals : List GpioValue) : Nat :=
  match vals with
  | [] => 0
  | v0 :: rest => countEdgeEvents edge v0 rest

/-- The dummy input pin (`DummyGpioIn`, src/src/dummy.rs lines 46-51): a
value callback plus the configured edge policy.  The callback is modelled
as a function from `Unit`. -/
structure DummyGpioIn where
  value : Unit → GpioValue
  edge : GpioEdge

/-- Embedding of `DummyGpioIn::new` over a boolean callback (src/src/dummy.rs
lines 53-65): the stored callback converts the user callback's result into
a `GpioValue`, and the edge policy starts as `None`. -/
def DummyGpioIn.new (f : Unit → Bool) : DummyGpioIn :=
  { value := fun u => gpioValueFromBool (f u), edge := .none }

/-- Embedding of `GpioIn::read_value` for `DummyGpioIn` (src/src/dummy.rs
lines 70-72): unconditionally `Ok` of the callback's value. -/
def DummyGpioIn.read_value (d : DummyGpioIn) : Except Unit GpioValue :=
  .ok (d.value ())

/-- Embedding of `GpioIn::set_edge` for `DummyGpioIn` (src/src/dummy.rs
lines 74-77): store the new edge policy and unconditionally return `Ok`. -/
def DummyGpioIn.set_edge (d : DummyGpioIn) (e : GpioEdge) :
    Except Unit Unit × DummyGpioIn :=
  (.ok (), { d with edge := e })

/-- The dummy output pin (`DummyGpioOut`, src/src/dummy.rs lines 134-138):
a destination callback receiving every set value; its result type is kept
abstract so the value handed to the callback is observable. -/
structure DummyGpioOut (α : Type) where
  dest : GpioValue → α

/-- Embedding of `GpioOut::set_low` for `DummyGpioOut` (src/src/dummy.rs
lines 153-156): pass `Low` to the destination callback, then
unconditionally return `Ok`.  The pair records the callback application
next to the result. -/
def DummyGpioOut.set_low (d : DummyGpioOut α) : α × Except Unit Unit :=
  (d.dest .low, .ok ())

/-- Embedding of `GpioOut::set_high` for `DummyGpioOut` (src/src/dummy.rs
lines 158-161): pass `High` to the destination callback, then
unconditionally return `Ok`. -/
def DummyGpioOut.set_high (d : DummyGpioOut α) : α × Except Unit Unit :=
  (d.dest .high, .ok ())

/-! Theorems checking the specification's claims. -/

/-- C9: `GpioValue` converts to and from a boolean with `true ⇔ High`,
`false ⇔ Low` (both round trips hold), and to and from a byte with the zero
byte mapping to `Low` and every nonzero byte mapping to `High`; the
value-side byte round trip holds (and the canonical wire bytes 0 and 1
round-trip through `GpioValue` as well — a full byte-side round trip is
impossible by the claim's own "nonzero ⇒ High" collapse). -/
theorem gpioValue_codec_roundtrips :
    gpioValueFromBool true = .high ∧ gpioValueFromBool false = .low ∧
    (∀ b, gpioValueToBool (gpioValueFromBool b) = b) ∧
    (∀ v, gpioValueFromBool (gpioValueToBool v) = v) ∧
    gpioValueFromU8 0 = .low ∧
    (∀ n : Nat, n ≠ 0 → gpioValueFromU8 n = .high) ∧
    (∀ v, gpioValueFromU8 (gpioValueToU8 v) = v) ∧
    gpioValueToU8 (gpioValueFromU8 0) = 0 ∧
    gpioValueToU8 (gpioValueFromU8 1) = 1 := by
  refine ⟨rfl, rfl, ?_, ?_, rfl, ?_, ?_, rfl, rfl⟩
  · intro b; cases b <;> rfl
  · intro v; cases v <;> rfl
  · intro n h; simp [gpioValueFromU8, h]
  · intro v; cases v <;> rfl

/-- Witness for C9 at the concrete nonzero byte 2. -/
theorem gpioValue_codec_roundtrips_witness : gpioValueFromU8 2 = .high :=
  gpioValue_codec_roundtrips.2.2.2.2.2.1 2 (by decide)

/-- C3: `read_value` first rewinds the value channel to position 0 (the
result is the same for every starting cursor position `pos`), reads exactly
one byte (the final cursor is 1 and the result does not depend on any
trailing bytes `rest`, in particular not on a trailing line terminator),
and maps byte `'0'` (48) to `Low` and byte `'1'` (49) to `High`. -/
theorem read_value_rewinds_and_maps (pos : Nat) (rest : List Nat) :
    read_value ⟨48 :: rest, pos⟩ = .ok (.low, ⟨48 :: rest, 1⟩) ∧
    read_value ⟨49 :: rest, pos⟩ = .ok (.high, ⟨49 :: rest, 1⟩) :=
  ⟨rfl, rfl⟩

/-- C4: for every first byte `b` other than `'0'` (48) and `'1'` (49),
`read_value` returns the typed error `InvalidData b` carrying exactly `b`
(the embedding is a total function, so no input panics, and no such byte is
ever mapped to `Low` or `High`). -/
theorem read_value_invalid_byte (pos : Nat) (rest : List Nat) (b : Nat)
    (h0 : b ≠ 48) (h1 : b ≠ 49) :
    read_value ⟨b :: rest, pos⟩ = .error (.invalidData b) := by
  simp [read_value, readExact1, seekStart, h0, h1]

/-- Witness for C4 at the concrete byte `0x32` (`'2'`, 50) followed by a
line terminator. -/
theorem read_value_invalid_byte_witness :
    read_value ⟨[50, 10], 0⟩ = .error (.invalidData 50) :=
  read_value_invalid_byte 0 [10] 50 (by decide) (by decide)

/-- C10: the dummy backend's operations are infallible despite their
`Result` signatures: `DummyGpioIn.read_value` always returns `Ok` of the
callback's value (for a pin built by `new`, the user callback's result
converted to `GpioValue`), `DummyGpioIn.set_edge` always returns `Ok`
(storing the policy), and `DummyGpioOut.set_low`/`set_high` always return
`Ok` after handing `Low`/`High` to the destination callback. -/
theorem dummy_operations_infallible (d : DummyGpioIn) (f : Unit → Bool)
    (e : GpioEdge) {α : Type} (o : DummyGpioOut α) :
    d.read_value = .ok (d.value ()) ∧
    (DummyGpioIn.new f).read_value = .ok (gpioValueFromBool (f ())) ∧
    (d.set_edge e).1 = .ok () ∧
    (d.set_edge e).2.edge = e ∧
    o.set_low = (o.dest .low, .ok ()) ∧
    o.set_high = (o.dest .high, .ok ()) :=
  ⟨rfl, rfl, rfl, rfl, rfl, rfl⟩

/-- C7 counterexample: over the value sequence Low, Low, High, Low, High
the dummy edge iterator with policy `Both` reports three ready events, not
four as claimed — the sequence contains only three transitions (the
repeated initial Low is skipped by the value-change check of
`DummyEdgeIter::next`). -/
theorem dummy_iter_both_counterexample :
    dummyIterEvents .both [.low, .low, .high, .low, .high] = 3 ∧
    dummyIterEvents .both [.low, .low, .high, .low, .high] ≠ 4 := by
  decide

/-- C7 amended: over the value sequence Low, Low, High, Low, High the dummy
edge iterator reports exactly two ready events under policy `Rising` (one
per Low→High transition, none at High→Low), exactly three under `Both` (one
per actual transition — the repeated Low yields none), and zero under
`None`. -/
theorem dummy_iter_event_counts :
    dummyIterEvents .rising [.low, .low, .high, .low, .high] = 2 ∧
    dummyIterEvents .both [.low, .low, .high, .low, .high] = 3 ∧
    dummyIterEvents .none [.low, .low, .high, .low, .high] = 0 := by
  decide

/-- C2: for every wakeup carrying exactly one event whose correlation token
is at least the number of registered devices, `get_next` yields the typed
error `EpollDataValue tok` carrying that token; the lookup in the slot
table is the bounds-checked `get?`, so no out-of-range access exists (the
embedding is a total function over the whole token range). -/
theorem get_next_out_of_range_token {α : Type} (it : EdgeIter α) (tok : Nat)
    (h : it.devs.length ≤ tok) :
    it.get_next (.events 1 tok) = .error (.epollDataValue tok) := by
  have hn : it.devs.get? tok = none := List.get?_eq_none.mpr h
  rw [List.get?_eq_getElem?] at hn
  simp [EdgeIter.get_next, hn]

/-- Witness for C2: one registered device, token 3. -/
theorem get_next_out_of_range_token_witness :
    EdgeIter.get_next (⟨some 100, [7]⟩ : EdgeIter Nat) (.events 1 3) =
      .error (.epollDataValue 3) :=
  get_next_out_of_range_token ⟨some 100, [7]⟩ 3 (by decide)

/-- C1 counterexample: a wait cycle that wakes with zero events (the
timeout expiring) yields the error `EpollEventCount 0`, which is the same
error variant — the same kind — as the error yielded for a non-timeout
anomalous wakeup with two events; `GpioError` has no dedicated timeout
variant, so the error is not distinct from other error kinds as claimed. -/
theorem timeout_error_not_distinct_counterexample :
    EdgeIter.get_next (⟨some 100, [7]⟩ : EdgeIter Nat) (.events 0 0) =
      .error (.epollEventCount 0) ∧
    EdgeIter.get_next (⟨some 100, [7]⟩ : EdgeIter Nat) (.events 2 0) =
      .error (.epollEventCount 2) ∧
    GpioError.kind (.epollEventCount 0) = GpioError.kind (.epollEventCount 2) := by
  decide

/-- C1 amended: for every wait cycle that wakes with zero events before the
configured timeout expires, the pull yields the error `EpollEventCount 0`
(the same `EpollEventCount` kind used for other unexpected event counts —
there is no dedicated Timeout variant), the sequence is not exhausted
(`next` still returns `some`), and a subsequent pull succeeds once a single
event with a registered token arrives. -/
theorem edge_iter_timeout_pull {α : Type} (it : EdgeIter α) (data : Nat) (d : α) :
    it.get_next (.events 0 data) = .error (.epollEventCount 0) ∧
    it.next (.events 0 data) = some (.error (.epollEventCount 0)) ∧
    (∀ tok, it.devs.get? tok = some d → it.get_next (.events 1 tok) = .ok d) := by
  refine ⟨rfl, rfl, ?_⟩
  intro tok h
  rw [List.get?_eq_getElem?] at h
  simp [EdgeIter.get_next, h]

/-- Witness for C1: after a zero-event (timeout) pull, the iterator with
one registered device still yields `some`, and a pull woken by one event
with token 0 succeeds. -/
theorem edge_iter_timeout_pull_witness :
    EdgeIter.next (⟨some 100, [7]⟩ : EdgeIter Nat) (.events 0 0) =
      some (.error (.epollEventCount 0)) ∧
    EdgeIter.get_next (⟨some 100, [7]⟩ : EdgeIter Nat) (.events 1 0) = .ok 7 :=
  ⟨(edge_iter_timeout_pull ⟨some 100, [7]⟩ 0 7).2.1,
    (edge_iter_timeout_pull ⟨some 100, [7]⟩ 0 7).2.2 0 rfl⟩

/-- C8 counterexample: with the timeout configured as `None`, the wait is
invoked with the millisecond timeout `isize::MAX = 2^63 - 1` — a
nonnegative, hence finite, bound under the wait primitive's convention
(negative means wait without bound); the unbounded sentinel is never
passed, so the kernel wait IS given a finite time limit. -/
theorem timeout_none_counterexample :
    effectiveTimeout none = isizeMax ∧
    (0 : Int) ≤ effectiveTimeout none ∧
    effectiveTimeout none ≠ -1 := by
  refine ⟨rfl, ?_, ?_⟩ <;> decide

/-- C8 amended: when the timeout is `None` (the default), the wait is
invoked with the maximum representable `isize` millisecond bound
`2^63 - 1` — an effectively, but not literally, unbounded wait: it is the
largest value the `Some t` configurations can ever map to. -/
theorem timeout_none_maps_to_isize_max :
    effectiveTimeout none = isizeMax ∧
    isizeMax = 2 ^ 63 - 1 ∧
    (∀ t : Nat, u64AsIsize t ≤ isizeMax) := by
  refine ⟨rfl, rfl, ?_⟩
  intro t
  have h : t % 2 ^ 64 < 2 ^ 64 := Nat.mod_lt _ (by decide)
  unfold u64AsIsize isizeMax
  split
  · omega
  · omega

/-- Every trace of attempted filesystem operations produced by
`SysFsGpio.openPin` — whichever steps fail — is a prefix of the full
ordered trace `openFullTrace`: steps are attempted in the fixed order
export (when the pin is not visible), polarity, direction, value open, and
a failing step cuts the trace off right after itself. -/
lemma openPin_trace_ordered (w : World) (n : Nat) (d : GpioDirection) :
    ∃ k, (SysFsGpio.openPin w n d).1 = (openFullTrace w.pinVisible n d).take k := by
  rcases w with ⟨pv, eo, alo, dko, oo, vc⟩
  cases pv <;> cases eo <;> cases alo <;> cases dko <;> cases oo <;>
    first
    | exact ⟨0, rfl⟩
    | exact ⟨1, rfl⟩
    | exact ⟨2, rfl⟩
    | exact ⟨3, rfl⟩
    | exact ⟨4, rfl⟩
    | exact ⟨5, rfl⟩

/-- When the pin is already visible in the kernel GPIO namespace, the
outcome of `SysFsGpio.openPin` does not depend on whether the export write
would succeed: the export step is skipped entirely. -/
lemma openPin_visible_ignores_export (w : World) (n : Nat) (d : GpioDirection)
    (h : w.pinVisible = true) (b : Bool) :
    SysFsGpio.openPin { w with exportOk := b } n d = SysFsGpio.openPin w n d := by
  rcases w with ⟨pv, eo, alo, dko, oo, vc⟩
  subst h
  cases alo <;> cases dko <;> cases oo <;> rfl

/-- When the pin is already visible, no export write appears in the trace
of `SysFsGpio.openPin`. -/
lemma openPin_visible_no_export (w : World) (n : Nat) (d : GpioDirection)
    (h : w.pinVisible = true) (m : Nat) :
    FsOp.writeExport m ∉ (SysFsGpio.openPin w n d).1 := by
  rcases w with ⟨pv, eo, alo, dko, oo, vc⟩
  subst h
  cases alo <;> cases dko <;> cases oo <;>
    simp [SysFsGpio.openPin, export_gpio_if_unexported, set_gpio_direction, open_gpio]

/-- When every filesystem step succeeds, `SysFsGpio.openPin` attempts
exactly the full ordered trace and returns the handle for the requested pin
with a freshly opened value channel. -/
lemma openPin_success (w : World) (n : Nat) (d : GpioDirection)
    (h1 : w.exportOk = true) (h2 : w.activeLowOk = true)
    (h3 : w.directionOk = true) (h4 : w.openOk = true) :
    (SysFsGpio.openPin w n d).1 = openFullTrace w.pinVisible n d ∧
    (SysFsGpio.openPin w n d).2 = .ok ⟨n, ⟨w.valueContent, 0⟩⟩ := by
  rcases w with ⟨pv, eo, alo, dko, oo, vc⟩
  subst h1; subst h2; subst h3; subst h4
  cases pv <;> exact ⟨rfl, rfl⟩

/-- C5: for every pin number, direction and filesystem behaviour, the
fallible steps of `SysFsGpio::open` are attempted in the order export →
polarity fix-up (the `"0"` write to `active_low`, performed twice by the
source) → direction write → value-channel open (every trace is a prefix of
that ordered sequence, and when all steps succeed it is exactly that
sequence, yielding the handle of the requested pin); and when the pin is
already visible in the kernel GPIO namespace, the export step is skipped —
no export write is attempted and the outcome is the same whether or not an
export write would have succeeded. -/
theorem sysfs_open_step_order (w : World) (n : Nat) (d : GpioDirection) :
    (∃ k, (SysFsGpio.openPin w n d).1 = (openFullTrace w.pinVisible n d).take k) ∧
    (w.pinVisible = true →
      (∀ b, SysFsGpio.openPin { w with exportOk := b } n d = SysFsGpio.openPin w n d) ∧
      ∀ m, FsOp.writeExport m ∉ (SysFsGpio.openPin w n d).1) ∧
    (w.exportOk = true → w.activeLowOk = true → w.directionOk = true →
      w.openOk = true →
      (SysFsGpio.openPin w n d).1 = openFullTrace w.pinVisible n d ∧
      (SysFsGpio.openPin w n d).2 = .ok ⟨n, ⟨w.valueContent, 0⟩⟩) :=
  ⟨openPin_trace_ordered w n d,
    fun h =>
      ⟨fun b => openPin_visible_ignores_export w n d h b,
        fun m => openPin_visible_no_export w n d h m⟩,
    fun h1 h2 h3 h4 => openPin_success w n d h1 h2 h3 h4⟩

/-- Witness for C5: a visible pin ignores a failing export (pin 9, output),
and an invisible pin with all steps succeeding produces the full ordered
trace and the opened handle (pin 7, input). -/
theorem sysfs_open_step_order_witness :
    SysFsGpio.openPin ⟨true, false, true, true, true, [48]⟩ 9 .output =
      SysFsGpio.openPin ⟨true, true, true, true, true, [48]⟩ 9 .output ∧
    FsOp.writeExport 9 ∉ (SysFsGpio.openPin ⟨true, true, true, true, true, [48]⟩ 9 .output).1 ∧
    (SysFsGpio.openPin ⟨false, true, true, true, true, [48, 10]⟩ 7 .input).1 =
      openFullTrace false 7 .input ∧
    (SysFsGpio.openPin ⟨false, true, true, true, true, [48, 10]⟩ 7 .input).2 =
      .ok ⟨7, ⟨[48, 10], 0⟩⟩ :=
  ⟨((sysfs_open_step_order ⟨true, true, true, true, true, [48]⟩ 9 .output).2.1 rfl).1 false,
    ((sysfs_open_step_order ⟨true, true, true, true, true, [48]⟩ 9 .output).2.1 rfl).2 9,
    ((sysfs_open_step_order ⟨false, true, true, true, true, [48, 10]⟩ 7 .input).2.2
      rfl rfl rfl rfl).1,
    ((sysfs_open_step_order ⟨false, true, true, true, true, [48, 10]⟩ 7 .input).2.2
      rfl rfl rfl rfl).2⟩

/-- Every operation in a `set_direction` trace is the direction write or
the value-channel open for the handle's own pin — in particular it is never
an export write and never a polarity write. -/
lemma set_direction_ops (w : World) (g : SysFsGpio) (d : GpioDirection) :
    ∀ op ∈ (SysFsGpio.set_direction w g d).1,
      op = FsOp.writeDirection g.gpio_num d ∨ op = FsOp.openValue g.gpio_num d := by
  rcases w with ⟨pv, eo, alo, dko, oo, vc⟩
  cases dko <;> cases oo <;>
    simp [SysFsGpio.set_direction, set_gpio_direction, open_gpio]

/-- A successful `set_direction` leaves the pin number unchanged (only the
value channel is replaced). -/
lemma set_direction_preserves_num (w : World) (g : SysFsGpio) (d : GpioDirection) :
    ∀ g2, (SysFsGpio.set_direction w g d).2 = .ok g2 → g2.gpio_num = g.gpio_num := by
  rcases w with ⟨pv, eo, alo, dko, oo, vc⟩
  cases dko <;> cases oo <;> intro g2 h <;>
    simp [SysFsGpio.set_direction, set_gpio_direction, open_gpio] at h
  subst h
  rfl

/-- When both steps succeed, `set_direction` attempts exactly the direction
write followed by the value-channel open, and replaces only the channel. -/
lemma set_direction_success (w : World) (g : SysFsGpio) (d : GpioDirection)
    (h3 : w.directionOk = true) (h4 : w.openOk = true) :
    (SysFsGpio.set_direction w g d).1 =
      [FsOp.writeDirection g.gpio_num d, FsOp.openValue g.gpio_num d] ∧
    (SysFsGpio.set_direction w g d).2 = .ok { g with sysfp := ⟨w.valueContent, 0⟩ } := by
  rcases w with ⟨pv, eo, alo, dko, oo, vc⟩
  subst h3; subst h4
  exact ⟨rfl, rfl⟩

/-- C6: the direction switch re-runs only the direction write and the
value-channel reopen for the pin's own number — its trace contains no
export write and no polarity write (every attempted operation is one of
those two, and on success it is exactly those two in order) — and the
resulting handle keeps the pin number: this holds for `set_direction`
itself and for the `into_input`/`into_output` wrappers. -/
theorem sysfs_direction_switch_frame (w : World) (g : SysFsGpio)
    (d : GpioDirection) (o : SysFsGpioOutput) (i : SysFsGpioInput) :
    (∀ op ∈ (SysFsGpio.set_direction w g d).1,
      op = FsOp.writeDirection g.gpio_num d ∨ op = FsOp.openValue g.gpio_num d) ∧
    (w.directionOk = true → w.openOk = true →
      (SysFsGpio.set_direction w g d).1 =
        [FsOp.writeDirection g.gpio_num d, FsOp.openValue g.gpio_num d] ∧
      (SysFsGpio.set_direction w g d).2 = .ok { g with sysfp := ⟨w.valueContent, 0⟩ }) ∧
    (∀ g2, (SysFsGpio.set_direction w g d).2 = .ok g2 → g2.gpio_num = g.gpio_num) ∧
    (SysFsGpioOutput.into_input w o).1 = (SysFsGpio.set_direction w o.gpio .input).1 ∧
    (∀ i2, (SysFsGpioOutput.into_input w o).2 = .ok i2 →
      i2.gpio.gpio_num = o.gpio.gpio_num) ∧
    (SysFsGpioInput.into_output w i).1 = (SysFsGpio.set_direction w i.gpio .output).1 ∧
    (∀ o2, (SysFsGpioInput.into_output w i).2 = .ok o2 →
      o2.gpio.gpio_num = i.gpio.gpio_num) := by
  refine ⟨set_direction_ops w g d, set_direction_success w g d,
    set_direction_preserves_num w g d, ?_, ?_, ?_, ?_⟩
  · rcases w with ⟨pv, eo, alo, dko, oo, vc⟩
    cases dko <;> cases oo <;> rfl
  · intro i2 h
    rcases w with ⟨pv, eo, alo, dko, oo, vc⟩
    cases dko <;> cases oo <;>
      simp [SysFsGpioOutput.into_input, SysFsGpio.set_direction,
        set_gpio_direction, open_gpio] at h
    subst h
    rfl
  · rcases w with ⟨pv, eo, alo, dko, oo, vc⟩
    cases dko <;> cases oo <;> rfl
  · intro o2 h
    rcases w with ⟨pv, eo, alo, dko, oo, vc⟩
    cases dko <;> cases oo <;>
      simp [SysFsGpioInput.into_output, SysFsGpio.set_direction,
        set_gpio_direction, open_gpio] at h
    subst h
    rfl

/-- Witness for C6: switching pin 7 from output to input with both steps
succeeding attempts exactly the direction write and the reopen, and both
the raw switch and the `into_input` wrapper keep pin number 7. -/
theorem sysfs_direction_switch_frame_witness :
    (SysFsGpio.set_direction ⟨true, true, true, true, true, [49]⟩ ⟨7, ⟨[48], 1⟩⟩ .input).1 =
      [FsOp.writeDirection 7 .input, FsOp.openValue 7 .input] ∧
    (SysFsGpio.set_direction ⟨true, true, true, true, true, [49]⟩ ⟨7, ⟨[48], 1⟩⟩ .input).2 =
      .ok ⟨7, ⟨[49], 0⟩⟩ ∧
    (7 : Nat) = 7 :=
  ⟨((sysfs_direction_switch_frame ⟨true, true, true, true, true, [49]⟩ ⟨7, ⟨[48], 1⟩⟩
      .input ⟨⟨7, ⟨[48], 1⟩⟩⟩ ⟨⟨7, ⟨[48], 1⟩⟩⟩).2.1 rfl rfl).1,
    ((sysfs_direction_switch_frame ⟨true, true, true, true, true, [49]⟩ ⟨7, ⟨[48], 1⟩⟩
      .input ⟨⟨7, ⟨[48], 1⟩⟩⟩ ⟨⟨7, ⟨[48], 1⟩⟩⟩).2.1 rfl rfl).2,
    (sysfs_direction_switch_frame ⟨true, true, true, true, true, [49]⟩ ⟨7, ⟨[48], 1⟩⟩
      .input ⟨⟨7, ⟨[48], 1⟩⟩⟩ ⟨⟨7, ⟨[48], 1⟩⟩⟩).2.2.1 ⟨7, ⟨[49], 0⟩⟩
      (((sysfs_direction_switch_frame ⟨true, true, true, true, true, [49]⟩ ⟨7, ⟨[48], 1⟩⟩
        .input ⟨⟨7, ⟨[48], 1⟩⟩⟩ ⟨⟨7, ⟨[48], 1⟩⟩⟩).2.1 rfl rfl).2)⟩

end Gpio
